import Mathlib

/-!
Verification of the promptify AI-provider core: the per-user rate limiter
(`src/services/ai/rate-limiter.ts`), the provider manager / router
(`src/services/ai/provider-manager.ts`), the request normalizer in the chat
API route (`src/app/api/chat/route.ts`), and the vendor adapters
(`openai-provider.ts`, `anthropic-provider.ts`, `google-provider.ts`).

Timestamps and counters are modelled as `Nat` (all reachable JavaScript
values here are non-negative integers well below 2^53, so JS number
arithmetic on them is exact integer arithmetic).  JavaScript `Map`s are
modelled as association lists with first-match lookup and in-place update,
matching `Map.get` / `Map.set` insertion-order semantics.
-/

namespace Promptify

/-! ## Rate limiter (`rate-limiter.ts`) -/

/-- A JS `Map<number, number>` of bucket-key to accumulated count. -/
abbrev CountMap := List (Nat × Nat)

/-- Model of `map.get(key) || 0` (`RateLimiter.getCount`): first matching key, else 0. -/
def mapGet (m : CountMap) (k : Nat) : Nat :=
  match m with
  | [] => 0
  | (k', v) :: rest => if k' = k then v else mapGet rest k

/-- Model of `map.set(key, v)`: replace the existing entry in place, else append. -/
def mapSet (m : CountMap) (k v : Nat) : CountMap :=
  match m with
  | [] => [(k, v)]
  | (k', v') :: rest => if k' = k then (k, v) :: rest else (k', v') :: mapSet rest k v

/-- Model of `RateLimiter.incrementCount`: `map.set(key, (map.get(key) || 0) + amount)`. -/
def incrementCount (m : CountMap) (k : Nat) (amount : Nat) : CountMap :=
  mapSet m k (mapGet m k + amount)

/-- Model of `ProviderRateLimitConfig` (`types.ts`): all ceilings optional. -/
structure ProviderRateLimitConfig where
  requestsPerMinute : Option Nat
  requestsPerHour : Option Nat
  requestsPerDay : Option Nat
  tokensPerMinute : Option Nat
  tokensPerHour : Option Nat
  tokensPerDay : Option Nat
deriving Repr, DecidableEq

/-- Model of `UserRateLimit` (`rate-limiter.ts`): six per-window counter maps. -/
structure UserRateLimit where
  requestsPerMinute : CountMap
  requestsPerHour : CountMap
  requestsPerDay : CountMap
  tokensPerMinute : CountMap
  tokensPerHour : CountMap
  tokensPerDay : CountMap
  lastResetTime : Nat
deriving Repr, DecidableEq

/-- The fresh all-zero record `getUserLimit` creates on first use. -/
def freshUserLimit (now : Nat) : UserRateLimit :=
  { requestsPerMinute := [], requestsPerHour := [], requestsPerDay := [],
    tokensPerMinute := [], tokensPerHour := [], tokensPerDay := [],
    lastResetTime := now }

/-- The `RateLimiter` instance state: `this.limits` (after the constructor
applied `?? default` to every field) and `this.userLimits`. -/
structure RateLimiterState where
  limits : ProviderRateLimitConfig
  userLimits : List (String × UserRateLimit)
deriving Repr, DecidableEq

/-- The constructor: every missing config field replaced by its default. -/
def rateLimiterInit (limits : ProviderRateLimitConfig) : RateLimiterState :=
  { limits :=
      { requestsPerMinute := some (limits.requestsPerMinute.getD 20)
        requestsPerHour := some (limits.requestsPerHour.getD 200)
        requestsPerDay := some (limits.requestsPerDay.getD 1000)
        tokensPerMinute := some (limits.tokensPerMinute.getD 40000)
        tokensPerHour := some (limits.tokensPerHour.getD 200000)
        tokensPerDay := some (limits.tokensPerDay.getD 2000000) }
    userLimits := [] }

/-- An entirely unconfigured limiter, `new RateLimiter()`. -/
def rateLimiterDefault : RateLimiterState :=
  rateLimiterInit ⟨none, none, none, none, none, none⟩

/-- Lookup of `this.userLimits.get(userId)`. -/
def lookupUser (us : List (String × UserRateLimit)) (userId : String) :
    Option UserRateLimit :=
  match us with
  | [] => none
  | (u, r) :: rest => if u = userId then some r else lookupUser rest userId

/-- Model of `userLimits.set(userId, r)`: replace in place, else append. -/
def setUser (us : List (String × UserRateLimit)) (userId : String)
    (r : UserRateLimit) : List (String × UserRateLimit) :=
  match us with
  | [] => [(userId, r)]
  | (u, r') :: rest =>
      if u = userId then (userId, r) :: rest else (u, r') :: setUser rest userId r

/-- The record `getUserLimit(userId)` returns: the stored one, or the fresh
all-zero record it lazily inserts.  (The lazy insertion itself adds only an
all-zero record, which no read can distinguish from absence; the reads below
therefore use this view.) -/
def getUserView (st : RateLimiterState) (userId : String) (now : Nat) :
    UserRateLimit :=
  (lookupUser st.userLimits userId).getD (freshUserLimit now)

/-- Model of `RateLimitStatus` (`types.ts`), restricted to the fields `checkLimit`
actually produces. -/
structure RemainingSnapshot where
  requestsThisMinute : Nat
  requestsThisHour : Nat
  requestsThisDay : Nat
deriving Repr, DecidableEq

structure RateLimitStatus where
  isLimited : Bool
  nextAvailableIn : Option Nat
  remaining : Option RemainingSnapshot
deriving Repr, DecidableEq

/-- Model of `RateLimiter.checkLimit(userId)` at wall-clock time `now` (ms). -/
def checkLimit (st : RateLimiterState) (userId : String) (now : Nat) :
    RateLimitStatus :=
  let userLimit := getUserView st userId now
  let minuteKey := now / 60000
  let minReqs := mapGet userLimit.requestsPerMinute minuteKey
  if minReqs ≥ st.limits.requestsPerMinute.getD 20 then
    { isLimited := true, nextAvailableIn := some (60000 - now % 60000),
      remaining := none }
  else
    let hourKey := now / 3600000
    let hourReqs := mapGet userLimit.requestsPerHour hourKey
    if hourReqs ≥ st.limits.requestsPerHour.getD 200 then
      { isLimited := true, nextAvailableIn := some (3600000 - now % 3600000),
        remaining := none }
    else
      let dayKey := now / 86400000
      let dayReqs := mapGet userLimit.requestsPerDay dayKey
      if dayReqs ≥ st.limits.requestsPerDay.getD 1000 then
        { isLimited := true, nextAvailableIn := some (86400000 - now % 86400000),
          remaining := none }
      else
        { isLimited := false, nextAvailableIn := none,
          remaining := some
            { requestsThisMinute := st.limits.requestsPerMinute.getD 20 - minReqs
              requestsThisHour := st.limits.requestsPerHour.getD 200 - hourReqs
              requestsThisDay := st.limits.requestsPerDay.getD 1000 - dayReqs } }

/-- Model of `RateLimiter.recordRequest(userId, tokenCount)` at time `now` (ms). -/
def recordRequest (st : RateLimiterState) (userId : String) (tokenCount : Nat)
    (now : Nat) : RateLimiterState :=
  let u0 := getUserView st userId now
  let minuteKey := now / 60000
  let hourKey := now / 3600000
  let dayKey := now / 86400000
  let u1 :=
    { u0 with
      requestsPerMinute := incrementCount u0.requestsPerMinute minuteKey 1
      requestsPerHour := incrementCount u0.requestsPerHour hourKey 1
      requestsPerDay := incrementCount u0.requestsPerDay dayKey 1 }
  let u2 :=
    if tokenCount > 0 then
      { u1 with
        tokensPerMinute := incrementCount u1.tokensPerMinute minuteKey tokenCount
        tokensPerHour := incrementCount u1.tokensPerHour hourKey tokenCount
        tokensPerDay := incrementCount u1.tokensPerDay dayKey tokenCount }
    else u1
  { st with userLimits := setUser st.userLimits userId { u2 with lastResetTime := now } }

/-- One `{used, limit}` pair of `getRemainingUsage`. -/
structure UsageEntry where
  used : Nat
  limit : Nat
deriving Repr, DecidableEq

/-- The six-window result of `RateLimiter.getRemainingUsage(userId)`. -/
structure RemainingUsage where
  requestsPerMinute : UsageEntry
  requestsPerHour : UsageEntry
  requestsPerDay : UsageEntry
  tokensPerMinute : UsageEntry
  tokensPerHour : UsageEntry
  tokensPerDay : UsageEntry
deriving Repr, DecidableEq

/-- Model of `RateLimiter.getRemainingUsage(userId)` at time `now` (ms). -/
def getRemainingUsage (st : RateLimiterState) (userId : String) (now : Nat) :
    RemainingUsage :=
  let userLimit := getUserView st userId now
  let minuteKey := now / 60000
  let hourKey := now / 3600000
  let dayKey := now / 86400000
  { requestsPerMinute :=
      ⟨mapGet userLimit.requestsPerMinute minuteKey, st.limits.requestsPerMinute.getD 20⟩
    requestsPerHour :=
      ⟨mapGet userLimit.requestsPerHour hourKey, st.limits.requestsPerHour.getD 200⟩
    requestsPerDay :=
      ⟨mapGet userLimit.requestsPerDay dayKey, st.limits.requestsPerDay.getD 1000⟩
    tokensPerMinute :=
      ⟨mapGet userLimit.tokensPerMinute minuteKey, st.limits.tokensPerMinute.getD 40000⟩
    tokensPerHour :=
      ⟨mapGet userLimit.tokensPerHour hourKey, st.limits.tokensPerHour.getD 200000⟩
    tokensPerDay :=
      ⟨mapGet userLimit.tokensPerDay dayKey, st.limits.tokensPerDay.getD 2000000⟩ }

/-! ## Canonical chat types (`types.ts`) -/

/-- A canonical `Message`.  The TS `role` union is the strings
`system | user | assistant`; the normalizer below may also produce these. -/
structure Msg where
  role : String
  content : String
deriving Repr, DecidableEq

/-- Model of `usage` object carried by responses and stream chunks. -/
structure Usage where
  promptTokens : Nat
  completionTokens : Nat
  totalTokens : Nat
deriving Repr, DecidableEq

/-- The `type` tag of a `StreamChunk`.  `ending` models the TS tag `end`
(a reserved word in Lean). -/
inductive ChunkKind where
  | start
  | text
  | ending
  | error
deriving Repr, DecidableEq

/-- Model of `StreamChunk` (`types.ts`). -/
structure StreamChunk where
  type : ChunkKind
  content : Option String
  error : Option String
  usage : Option Usage
deriving Repr, DecidableEq

def startChunk : StreamChunk := ⟨ChunkKind.start, none, none, none⟩

def textChunk (c : String) : StreamChunk := ⟨ChunkKind.text, some c, none, none⟩

def endChunk : StreamChunk := ⟨ChunkKind.ending, none, none, none⟩

def errorChunk (e : String) : StreamChunk := ⟨ChunkKind.error, none, some e, none⟩

/-- Model of `AIProviderResponse` (`types.ts`). -/
structure AIProviderResponse where
  content : String
  model : String
  usage : Option Usage
  finishReason : Option String
deriving Repr, DecidableEq

/-- Model of `ChatOptions` (`types.ts`).  `temperature` is a rational in the model;
the adapters validate it against `[0, 2]`. -/
structure ChatOptions where
  model : String
  temperature : Option ℚ
  maxTokens : Option Nat
  topP : Option ℚ
  frequencyPenalty : Option ℚ
  presencePenalty : Option ℚ
deriving Repr, DecidableEq

/-! ## Provider manager / router (`provider-manager.ts`) -/

/-- Model of `Math.ceil(a / 1000)` on a non-negative integer `a`. -/
def ceilDiv1000 (a : Nat) : Nat := (a + 999) / 1000

/-- The message of the error the router throws (`chat`) or synthesizes as an
error chunk (`chatStream`) when the rate limiter reports `isLimited`. -/
def rateLimitMessage (status : RateLimitStatus) : String :=
  "Rate limit exceeded. Try again in " ++
    toString (ceilDiv1000 (status.nextAvailableIn.getD 0)) ++ " seconds"

/-- Model of `AIProviderManager` state: the registered provider names, the default
provider, and the owned rate limiter.  Adapter behaviour is supplied per
call as an oracle (the adapters are verified separately below). -/
structure ManagerState where
  providers : List String
  defaultProvider : String
  rateLimiter : RateLimiterState
deriving Repr, DecidableEq

/-- Model of `getProvider(name?)`: the explicit name or the default; `none` models the
`Provider ... not registered` throw. -/
def resolveProvider (st : ManagerState) (provider : Option String) :
    Option String :=
  let providerName := provider.getD st.defaultProvider
  if st.providers.contains providerName then some providerName else none

/-- The outcome of `AIProviderManager.chat`: the returned value or the thrown
error's message, the rate limiter state afterwards, and whether the adapter's
`chat` was invoked. -/
structure ManagerChatResult where
  result : Except String AIProviderResponse
  rateLimiter : RateLimiterState
  adapterInvoked : Bool
deriving Repr

/-- Model of `AIProviderManager.chat(userId, messages, options, provider?)` at time
`now`.  `adapterResult` is what the resolved adapter's `chat` would return
(`Except.error` models a rejected promise). -/
def managerChat (st : ManagerState) (userId : String)
    (provider : Option String) (adapterResult : Except String AIProviderResponse)
    (now : Nat) : ManagerChatResult :=
  let limitStatus := checkLimit st.rateLimiter userId now
  if limitStatus.isLimited then
    ⟨Except.error (rateLimitMessage limitStatus), st.rateLimiter, false⟩
  else
    match resolveProvider st provider with
    | none =>
        ⟨Except.error ("Provider " ++ (provider.getD st.defaultProvider) ++
          " not registered"), st.rateLimiter, false⟩
    | some _ =>
        match adapterResult with
        | Except.error e => ⟨Except.error e, st.rateLimiter, true⟩
        | Except.ok response =>
            ⟨Except.ok response,
             recordRequest st.rateLimiter userId
               ((response.usage.map Usage.totalTokens).getD 0) now,
             true⟩

/-- The fold performed by the router's `wrappedOnChunk`: `totalTokens` starts
at 0 and is overwritten by `chunk.usage.totalTokens` whenever that value is
truthy (i.e. present and non-zero). -/
def capturedTotal (chunks : List StreamChunk) : Nat :=
  chunks.foldl
    (fun acc c =>
      match c.usage with
      | some u => if u.totalTokens ≠ 0 then u.totalTokens else acc
      | none => acc)
    0

/-- The outcome of `AIProviderManager.chatStream`: the chunk sequence
delivered to the caller's `onChunk`, the rate limiter state afterwards,
whether the adapter's `chatStream` was invoked, and the returned/rejected
promise. -/
structure ManagerStreamResult where
  delivered : List StreamChunk
  rateLimiter : RateLimiterState
  adapterInvoked : Bool
  outcome : Except String Unit
deriving Repr

/-- Model of `AIProviderManager.chatStream(userId, messages, options, onChunk,
provider?)` at time `now`.  The adapter's behaviour is the oracle
`adapterChunks` (the chunks it pushes, in order) and `adapterThrows`
(`some e` models its promise rejecting after those chunks). -/
def managerChatStream (st : ManagerState) (userId : String)
    (provider : Option String) (adapterChunks : List StreamChunk)
    (adapterThrows : Option String) (now : Nat) : ManagerStreamResult :=
  let limitStatus := checkLimit st.rateLimiter userId now
  if limitStatus.isLimited then
    ⟨[errorChunk (rateLimitMessage limitStatus)], st.rateLimiter, false,
      Except.ok ()⟩
  else
    match resolveProvider st provider with
    | none =>
        ⟨[], st.rateLimiter, false,
          Except.error ("Provider " ++ (provider.getD st.defaultProvider) ++
            " not registered")⟩
    | some _ =>
        match adapterThrows with
        | some e => ⟨adapterChunks, st.rateLimiter, true, Except.error e⟩
        | none =>
            ⟨adapterChunks,
             recordRequest st.rateLimiter userId (capturedTotal adapterChunks) now,
             true, Except.ok ()⟩

/-! ## Request normalizer (`normalizeMessages` in `app/api/chat/route.ts`)

The inbound payload elements are arbitrary JSON-ish JavaScript values,
modelled by `JsVal`.  Property access on `null`/`undefined` throws a
`TypeError` (modelled by `Except.error`); on any other value it yields the
property or `undefined`. -/

inductive JsVal where
  | jsNull
  | jsUndef
  | jsStr (s : String)
  | jsNum (n : Int)
  | jsBool (b : Bool)
  | jsArr (elems : List JsVal)
  | jsObj (fields : List (String × JsVal))
deriving Repr

/-- Test that a value is neither `null` nor `undefined` (property reads on it
cannot throw). -/
def notNullish : JsVal → Bool
  | JsVal.jsNull => false
  | JsVal.jsUndef => false
  | _ => true

/-- JavaScript truthiness of a `JsVal`. -/
def jsTruthy : JsVal → Bool
  | JsVal.jsNull => false
  | JsVal.jsUndef => false
  | JsVal.jsStr s => s ≠ ""
  | JsVal.jsNum n => n ≠ 0
  | JsVal.jsBool b => b
  | JsVal.jsArr _ => true
  | JsVal.jsObj _ => true

/-- Test of `typeof v === 'object'` (true for `null`, arrays and objects). -/
def isObjectType : JsVal → Bool
  | JsVal.jsNull => true
  | JsVal.jsArr _ => true
  | JsVal.jsObj _ => true
  | _ => false

/-- Test of `typeof v === 'string'`. -/
def isStringV : JsVal → Bool
  | JsVal.jsStr _ => true
  | _ => false

/-- The underlying string of a string value (callers guard with `isStringV`). -/
def asString : JsVal → String
  | JsVal.jsStr s => s
  | _ => ""

/-- Test of `Array.isArray(v)`. -/
def isArrayV : JsVal → Bool
  | JsVal.jsArr _ => true
  | _ => false

/-- The elements of an array value (callers guard with `isArrayV`). -/
def arrElems : JsVal → List JsVal
  | JsVal.jsArr xs => xs
  | _ => []

/-- Property read on a receiver known not to be `null`/`undefined`, and also
the optional-chain read `v?.key` (which yields `undefined` on `null`): the
named field of an object, `undefined` everywhere else. -/
def propOf (v : JsVal) (key : String) : JsVal :=
  match v with
  | JsVal.jsObj fields => (((fields.find? (fun f => f.1 == key)).map Prod.snd).getD JsVal.jsUndef)
  | _ => JsVal.jsUndef

/-- Plain property read `v.key`: throws a `TypeError` when the receiver is
`null` or `undefined`. -/
def getProp (v : JsVal) (key : String) : Except String JsVal :=
  match v with
  | JsVal.jsNull =>
      Except.error ("TypeError: cannot read properties of null (reading " ++ key ++ ")")
  | JsVal.jsUndef =>
      Except.error ("TypeError: cannot read properties of undefined (reading " ++ key ++ ")")
  | _ => Except.ok (propOf v key)

/-- Escape of one character inside a JSON string literal. -/
def jsonEscapeChar (c : Char) : String :=
  if c = '\"' then "\\\""
  else if c = '\\' then "\\\\"
  else if c = '\n' then "\\n"
  else if c = '\t' then "\\t"
  else if c = '\r' then "\\r"
  else String.mk [c]

/-- A JSON string literal. -/
def jsonQuote (s : String) : String :=
  "\"" ++ String.join (s.toList.map jsonEscapeChar) ++ "\""

mutual

/-- Model of `JSON.stringify`: `none` models the JavaScript result
`undefined` (for an `undefined` argument); arrays render omitted elements as
`null` and objects drop `undefined`-valued fields, as `JSON.stringify` does. -/
def jsonStringify : JsVal → Option String
  | JsVal.jsNull => some "null"
  | JsVal.jsUndef => none
  | JsVal.jsStr s => some (jsonQuote s)
  | JsVal.jsNum n => some (toString n)
  | JsVal.jsBool b => some (cond b "true" "false")
  | JsVal.jsArr elems =>
      some ("[" ++ String.intercalate "," (jsonStringifyElems elems) ++ "]")
  | JsVal.jsObj fields =>
      some ("\x7b" ++ String.intercalate "," (jsonStringifyFields fields) ++ "\x7d")

def jsonStringifyElems : List JsVal → List String
  | [] => []
  | v :: rest => ((jsonStringify v).getD "null") :: jsonStringifyElems rest

def jsonStringifyFields : List (String × JsVal) → List String
  | [] => []
  | (k, v) :: rest =>
      match jsonStringify v with
      | some s => (jsonQuote k ++ ":" ++ s) :: jsonStringifyFields rest
      | none => jsonStringifyFields rest

end

/-- Contribution of one `parts`/array element to the joined string:
`typeof p === 'string' ? p : JSON.stringify(p)`, with `Array.prototype.join`
rendering an `undefined` entry as the empty string. -/
def partToString (p : JsVal) : String :=
  if isStringV p then asString p else (jsonStringify p).getD ""

/-- The set check `allowed.has(role)` with `allowed = {system, user, assistant}`. -/
def allowedRoles : List String := ["system", "user", "assistant"]

/-- Whitespace for the model of `String.prototype.trim`. -/
def jsWhitespace (c : Char) : Bool :=
  c = ' ' || c = '\t' || c = '\n' || c = '\r' || c = '\x0b' || c = '\x0c'

/-- Removal of trailing whitespace from a character list. -/
def trimRightList (l : List Char) : List Char :=
  match l with
  | [] => []
  | c :: rest =>
      let r := trimRightList rest
      if r.isEmpty && jsWhitespace c then [] else c :: r

/-- Model of `s.trim()`: leading and trailing whitespace removed. -/
def jsTrim (s : String) : String :=
  String.mk (trimRightList (s.toList.dropWhile jsWhitespace))

/-- Role resolution of one inbound message:
`m?.role && typeof m.role === 'string' && allowed.has(m.role) ? m.role : 'user'`. -/
def resolveRole (m : JsVal) : String :=
  let roleV := propOf m "role"
  if jsTruthy roleV && isStringV roleV && allowedRoles.contains (asString roleV) then
    asString roleV
  else "user"

/-- Content resolution of one inbound message after the (possibly throwing)
read of `m.content` succeeded; every later property read is on a receiver
already known not to be `null`/`undefined`, hence total. -/
def resolveContentRest (m : JsVal) (contentV : JsVal) : String :=
  if isStringV contentV then asString contentV
  else if isStringV (propOf m "message") then asString (propOf m "message")
  else if jsTruthy contentV && isObjectType contentV then
    (if isArrayV (propOf contentV "parts") then
       String.intercalate "" ((arrElems (propOf contentV "parts")).map partToString)
     else if isArrayV contentV then
       String.intercalate "\n" ((arrElems contentV).map partToString)
     else if isStringV (propOf contentV "text") then asString (propOf contentV "text")
     else (jsonStringify contentV).getD "")
  else if isStringV (propOf m "text") then asString (propOf m "text")
  else ""

/-- Content resolution of one inbound message; the initial `typeof m.content`
read throws on a `null`/`undefined` entry. -/
def resolveContent (m : JsVal) : Except String String :=
  match getProp m "content" with
  | Except.error e => Except.error e
  | Except.ok contentV => Except.ok (resolveContentRest m contentV)

/-- Mapping of one inbound value to a canonical message
(`{ role, content: (content || '').trim() }`). -/
def resolveMsg (m : JsVal) : Except String Msg :=
  match resolveContent m with
  | Except.error e => Except.error e
  | Except.ok content => Except.ok ⟨resolveRole m, jsTrim content⟩

/-- Model of `normalizeMessages` (`route.ts`): non-arrays map to `[]`; each
element is normalized; messages whose trimmed content is empty are dropped. -/
def normalizeMessages (msgs : JsVal) : Except String (List Msg) :=
  match msgs with
  | JsVal.jsArr ms =>
      match ms.mapM resolveMsg with
      | Except.error e => Except.error e
      | Except.ok mapped =>
          Except.ok (mapped.filter (fun mm => mm.content != ""))
  | _ => Except.ok []

/-! ## Shared adapter validation (`base-provider.ts`) -/

/-- Model of `BaseAIProvider.validateMessages`: the array must be non-empty
and every element must have truthy (non-empty) `role` and `content`. -/
def validateMessages (messages : List Msg) : Except String Unit :=
  if messages.isEmpty then Except.error "Messages must be a non-empty array"
  else if messages.all (fun msg => msg.role != "" && msg.content != "") then Except.ok ()
  else Except.error "Each message must have role and content"

/-- Model of `BaseAIProvider.validateOptions`. -/
def validateOptions (options : ChatOptions) : Except String Unit :=
  if options.model = "" then Except.error "Model must be specified"
  else
    match options.temperature with
    | some t =>
        if t < 0 || t > 2 then Except.error "Temperature must be between 0 and 2"
        else
          match options.maxTokens with
          | some mt => if mt < 1 then Except.error "maxTokens must be at least 1" else Except.ok ()
          | none => Except.ok ()
    | none =>
        match options.maxTokens with
        | some mt => if mt < 1 then Except.error "maxTokens must be at least 1" else Except.ok ()
        | none => Except.ok ()

/-- Both validations, in the order every adapter entry point runs them. -/
def validateArgs (messages : List Msg) (options : ChatOptions) : Except String Unit :=
  match validateMessages messages with
  | Except.error e => Except.error e
  | Except.ok _ => validateOptions options

/-! ## Temperature-retry condition (OpenAI adapter)

The code tests `/temperature/i.test(errMessage)` together with
`/unsupported|not supported|Only the default/i.test(errMessage)`. -/

/-- Test that a character list starts with another. -/
def listStartsWith : List Char → List Char → Bool
  | _, [] => true
  | [], _ :: _ => false
  | c :: cs, d :: ds => c == d && listStartsWith cs ds

/-- Test that a character list contains another as a contiguous run. -/
def listContainsSub (hay needle : List Char) : Bool :=
  match hay with
  | [] => needle.isEmpty
  | _ :: rest => listStartsWith hay needle || listContainsSub rest needle

/-- ASCII lower-casing of one character (the regex alternatives under test
are all ASCII, so ASCII case folding models the `/i` flag for them). -/
def lowerChar (c : Char) : Char :=
  if 'A' ≤ c ∧ c ≤ 'Z' then Char.ofNat (c.toNat + 32) else c

/-- Case-insensitive substring test (the needle is given in lower case). -/
def lowerContains (hay needle : String) : Bool :=
  listContainsSub (hay.toList.map lowerChar) needle.toList

/-- The retry condition of the OpenAI adapter on a non-2xx `errMessage`
(minus the `options.temperature !== undefined` conjunct, which callers add):
the message mentions `temperature` and one of `unsupported`,
`not supported`, `Only the default`, case-insensitively. -/
def tempRetryCondition (errMessage : String) : Bool :=
  lowerContains errMessage "temperature" &&
    (lowerContains errMessage "unsupported" ||
     lowerContains errMessage "not supported" ||
     lowerContains errMessage "only the default")

/-! ## Adapter `chat` (C7)

Each HTTP attempt is answered by a vendor oracle.  A 2xx answer carries the
canonical response the adapter's JSON-field mapping would produce (that
per-field extraction is collapsed here; the claims under verification
concern the retry control flow, not the field mapping). -/

/-- One vendor answer to a `chat` HTTP request. -/
structure ChatVendorResponse where
  ok : Bool
  errMessage : String
  data : AIProviderResponse
deriving Repr

/-- A vendor oracle for up to two `chat` attempts: `first` answers the
initial request, `second` answers a retry (consulted only if one is made). -/
structure ChatVendor where
  first : ChatVendorResponse
  second : ChatVendorResponse
deriving Repr

/-- Outcome of an adapter `chat` call: the settled promise, plus one entry
per HTTP attempt recording whether that attempt's payload carried a
`temperature` field. -/
structure AdapterChatOutcome where
  result : Except String AIProviderResponse
  attemptsTemp : List Bool
deriving Repr

/-- Model of `OpenAIProvider.chat`: one attempt (temperature included only
when the caller supplied one); on a non-2xx answer whose message satisfies
the retry condition and with a caller-supplied temperature, exactly one
retry with the temperature omitted; all other errors propagate wrapped. -/
def openaiChat (vendor : ChatVendor) (messages : List Msg) (options : ChatOptions) :
    AdapterChatOutcome :=
  match validateArgs messages options with
  | Except.error e => ⟨Except.error e, []⟩
  | Except.ok _ =>
      let firstTemp := options.temperature.isSome
      if vendor.first.ok then ⟨Except.ok vendor.first.data, [firstTemp]⟩
      else
        let errMessage := vendor.first.errMessage
        if options.temperature.isSome && tempRetryCondition errMessage then
          if vendor.second.ok then ⟨Except.ok vendor.second.data, [firstTemp, false]⟩
          else
            ⟨Except.error ("OpenAI chat error: OpenAI API error: " ++ vendor.second.errMessage),
             [firstTemp, false]⟩
        else ⟨Except.error ("OpenAI chat error: OpenAI API error: " ++ errMessage), [firstTemp]⟩

/-- Model of `AnthropicProvider.chat`: a single attempt whose payload always
carries a temperature (`options.temperature ?? 0.7`); every non-2xx answer
propagates wrapped, with no retry. -/
def anthropicChat (vendor : ChatVendor) (messages : List Msg) (options : ChatOptions) :
    AdapterChatOutcome :=
  match validateArgs messages options with
  | Except.error e => ⟨Except.error e, []⟩
  | Except.ok _ =>
      if vendor.first.ok then ⟨Except.ok vendor.first.data, [true]⟩
      else
        ⟨Except.error ("Anthropic chat error: Anthropic API error: " ++ vendor.first.errMessage),
         [true]⟩

/-- Model of `GoogleProvider.chat`: a single attempt whose payload always
carries a temperature (`options.temperature ?? 0.7` in `generationConfig`);
every non-2xx answer propagates wrapped, with no retry. -/
def googleChat (vendor : ChatVendor) (messages : List Msg) (options : ChatOptions) :
    AdapterChatOutcome :=
  match validateArgs messages options with
  | Except.error e => ⟨Except.error e, []⟩
  | Except.ok _ =>
      if vendor.first.ok then ⟨Except.ok vendor.first.data, [true]⟩
      else
        ⟨Except.error ("Google chat error: Google API error: " ++ vendor.first.errMessage),
         [true]⟩

/-! ## Adapter `chatStream` (C4)

The vendor's wire stream is modelled at the granularity the code inspects
it: one value per complete decoded line, each mapped to the branch of the
line-processing code it would take. -/

/-- One decoded line of the OpenAI SSE stream.  `deltaContent c` stands for
a `data: ` line whose payload parses as JSON with
`choices[0]?.delta?.content || '' = c`. -/
inductive OpenAISseLine where
  | notData
  | doneMark
  | deltaContent (content : String)
  | invalidJson
deriving Repr, DecidableEq, BEq

/-- Chunks emitted for one decoded OpenAI line. -/
def openaiLineChunks : OpenAISseLine → List StreamChunk
  | OpenAISseLine.notData => []
  | OpenAISseLine.doneMark => [endChunk]
  | OpenAISseLine.deltaContent c => if c ≠ "" then [textChunk c] else []
  | OpenAISseLine.invalidJson => []

/-- One decoded line of the Anthropic SSE stream, by the `parsed.type` the
code branches on.  `errorEvent m` carries `parsed.error?.message || 'Unknown
error'`. -/
inductive AnthropicSseLine where
  | notData
  | contentBlockDelta (text : String)
  | messageStop
  | errorEvent (message : String)
  | otherEvent
  | invalidJson
deriving Repr, DecidableEq, BEq

/-- Chunks emitted for one decoded Anthropic line.  Note an `error` event
emits an `error` chunk but the read loop keeps going. -/
def anthropicLineChunks : AnthropicSseLine → List StreamChunk
  | AnthropicSseLine.notData => []
  | AnthropicSseLine.contentBlockDelta t => if t ≠ "" then [textChunk t] else []
  | AnthropicSseLine.messageStop => [endChunk]
  | AnthropicSseLine.errorEvent m => [errorChunk m]
  | AnthropicSseLine.otherEvent => []
  | AnthropicSseLine.invalidJson => []

/-- One vendor answer to a streaming HTTP request over line alphabet `L`:
either a non-2xx status (`ok = false`, with the resolved error message), or
a 2xx body delivering `lines` and then either closing (`abortError = none`)
or rejecting a read with the given error. -/
structure StreamAttempt (L : Type) where
  ok : Bool
  errMessage : String
  lines : List L
  abortError : Option String
deriving Repr

/-- A vendor oracle for up to two streaming attempts. -/
structure StreamVendor (L : Type) where
  first : StreamAttempt L
  second : StreamAttempt L
deriving Repr

/-- Chunks emitted while consuming one 2xx streaming body. -/
def streamBodyChunks {L : Type} (lineChunks : L → List StreamChunk)
    (a : StreamAttempt L) : List StreamChunk :=
  (a.lines.map lineChunks).flatten ++
    (match a.abortError with
     | some e => [errorChunk e]
     | none => [])

/-- Model of `OpenAIProvider.chatStream`: the chunk sequence delivered to
`onChunk`.  Validation throws before any chunk; the `start` chunk precedes
the HTTP call; a non-2xx answer is retried once without temperature exactly
under `tempRetryCondition`; any thrown error becomes a final `error` chunk;
the `end` chunk is emitted only on a decoded `[DONE]` line. -/
def openaiChatStreamTrace (vendor : StreamVendor OpenAISseLine)
    (messages : List Msg) (options : ChatOptions) : List StreamChunk :=
  match validateArgs messages options with
  | Except.error _ => []
  | Except.ok _ =>
      startChunk ::
        (if vendor.first.ok then streamBodyChunks openaiLineChunks vendor.first
         else
           let errMessage := vendor.first.errMessage
           if options.temperature.isSome && tempRetryCondition errMessage then
             (if vendor.second.ok then streamBodyChunks openaiLineChunks vendor.second
              else [errorChunk ("OpenAI API error: " ++ vendor.second.errMessage)])
           else [errorChunk ("OpenAI API error: " ++ errMessage)])

/-- Model of `AnthropicProvider.chatStream`: no retry; a non-2xx answer
throws `Anthropic API error: <statusText>`; the `end` chunk is emitted only
on a decoded `message_stop` event. -/
def anthropicChatStreamTrace (attempt : StreamAttempt AnthropicSseLine)
    (messages : List Msg) (options : ChatOptions) : List StreamChunk :=
  match validateArgs messages options with
  | Except.error _ => []
  | Except.ok _ =>
      startChunk ::
        (if attempt.ok then streamBodyChunks anthropicLineChunks attempt
         else [errorChunk ("Anthropic API error: " ++ attempt.errMessage)])

/-- Test for a terminal chunk (`end` or `error`). -/
def isTerminalB (c : StreamChunk) : Bool :=
  c.type == ChunkKind.ending || c.type == ChunkKind.error

/-- The chunk-sequence shape C4 asserts: exactly one `start` first, then
zero or more `text` chunks, then exactly one terminal chunk. -/
def wellFormedTrace (cs : List StreamChunk) : Bool :=
  match cs with
  | [] => false
  | c :: rest =>
      c.type == ChunkKind.start &&
      (match rest.getLast? with
       | none => false
       | some lastC =>
           isTerminalB lastC && rest.dropLast.all (fun mid => mid.type == ChunkKind.text))

/-! ## Message conversion of the Anthropic and Google adapters (C10) -/

/-- Model of `AnthropicProvider.convertMessages`: the loop keeps the content
of each `system` message in the single `system` slot (later ones overwrite
earlier ones) and appends every other message in order. -/
def anthropicConvertMessages (messages : List Msg) : Option String × List Msg :=
  messages.foldl
    (fun acc msg =>
      if msg.role == "system" then (some msg.content, acc.2)
      else (acc.1, acc.2 ++ [⟨msg.role, msg.content⟩]))
    (none, [])

/-- One `{ text }` part of the Google wire format. -/
structure GooglePart where
  text : String
deriving Repr, DecidableEq

/-- One `{ role, parts }` entry of the Google `contents` array. -/
structure GoogleContent where
  role : String
  parts : List GooglePart
deriving Repr, DecidableEq

/-- Model of `GoogleProvider.convertMessages`: each `system` message
overwrites the single `systemInstruction`; every other message is appended
with `assistant` renamed to `model` and anything else sent as `user`. -/
def googleConvertMessages (messages : List Msg) :
    Option (List GooglePart) × List GoogleContent :=
  messages.foldl
    (fun acc msg =>
      if msg.role == "system" then (some [⟨msg.content⟩], acc.2)
      else (acc.1, acc.2 ++ [⟨if msg.role == "assistant" then "model" else "user",
                              [⟨msg.content⟩]⟩]))
    (none, [])

/-! ## Claim-side specification models

These definitions follow the words of the spec sentences under test (not
the code); they exist to be compared against the source-derived functions
above. -/

/-- Role resolution as the C6 claim words it: default `user` unless the
role is one of `system`/`user`/`assistant`. -/
def claimRole (m : JsVal) : String :=
  match propOf m "role" with
  | JsVal.jsStr s => if allowedRoles.contains s then s else "user"
  | _ => "user"

/-- Content resolution exactly as the C6 claim states it: (a) string
`content`; (b) string `message`; (c) object `content.parts` array joined by
concatenation; (d) plain array `content` joined with newlines; (e)
`content.text` string; (f) top-level string `text`; otherwise the empty
string. -/
def claimContentOrig (m : JsVal) : String :=
  let contentV := propOf m "content"
  if isStringV contentV then asString contentV
  else if isStringV (propOf m "message") then asString (propOf m "message")
  else if jsTruthy contentV && isObjectType contentV && isArrayV (propOf contentV "parts") then
    String.intercalate "" ((arrElems (propOf contentV "parts")).map partToString)
  else if isArrayV contentV then
    String.intercalate "\n" ((arrElems contentV).map partToString)
  else if isStringV (propOf contentV "text") then asString (propOf contentV "text")
  else if isStringV (propOf m "text") then asString (propOf m "text")
  else ""

/-- The C6 claim's normalizer output on an inbound array: per-message role
and trimmed resolved content, with empty-content messages dropped. -/
def claimNormalizeOrig (ms : List JsVal) : List Msg :=
  (ms.map (fun m => (⟨claimRole m, jsTrim (claimContentOrig m)⟩ : Msg))).filter
    (fun mm => mm.content != "")

/-- Content resolution as amended: inside a truthy-object `content`, the
final fallback is `JSON.stringify(content)` (not the empty string), and the
top-level `text` field is consulted only when `content` is not a truthy
object. -/
def claimContentAmended (m : JsVal) : String :=
  let contentV := propOf m "content"
  if isStringV contentV then asString contentV
  else if isStringV (propOf m "message") then asString (propOf m "message")
  else if jsTruthy contentV && isObjectType contentV then
    (if isArrayV (propOf contentV "parts") then
       String.intercalate "" ((arrElems (propOf contentV "parts")).map partToString)
     else if isArrayV contentV then
       String.intercalate "\n" ((arrElems contentV).map partToString)
     else if isStringV (propOf contentV "text") then asString (propOf contentV "text")
     else (jsonStringify contentV).getD "")
  else if isStringV (propOf m "text") then asString (propOf m "text")
  else ""

/-- The amended C6 normalizer output. -/
def claimNormalizeAmended (ms : List JsVal) : List Msg :=
  (ms.map (fun m => (⟨claimRole m, jsTrim (claimContentAmended m)⟩ : Msg))).filter
    (fun mm => mm.content != "")

/-- The value the C9 claim says is recorded: the last `usage.totalTokens`
observed among the chunks, 0 when no chunk carried a `usage`. -/
def lastCarriedTotal (chunks : List StreamChunk) : Nat :=
  (((chunks.filterMap StreamChunk.usage).getLast?).map Usage.totalTokens).getD 0

/-- The value the code actually captures, described directly: the last
non-zero `usage.totalTokens` among the chunks, 0 when there is none. -/
def lastNonzeroTotal (chunks : List StreamChunk) : Nat :=
  (((chunks.filterMap (fun c => c.usage.map Usage.totalTokens)).filter
      (fun t => t != 0)).getLast?).getD 0

/-! ## Helper lemmas: association maps -/

theorem mapGet_mapSet_self (m : CountMap) (k v : Nat) :
    mapGet (mapSet m k v) k = v := by
  induction m with
  | nil => simp [mapSet, mapGet]
  | cons hd tl ih =>
      obtain ⟨k', v'⟩ := hd
      by_cases h : k' = k
      · simp [mapSet, mapGet, h]
      · simp [mapSet, mapGet, h, ih]

theorem mapGet_mapSet_ne (m : CountMap) (k k' v : Nat) (h : k' ≠ k) :
    mapGet (mapSet m k v) k' = mapGet m k' := by
  induction m with
  | nil => simp [mapSet, mapGet, Ne.symm h]
  | cons hd tl ih =>
      obtain ⟨k₀, v₀⟩ := hd
      by_cases h0 : k₀ = k
      · subst h0
        simp [mapSet, mapGet, Ne.symm h]
      · by_cases h1 : k₀ = k'
        · simp [mapSet, mapGet, h0, h1, h]
        · simp [mapSet, mapGet, h0, h1, ih]

theorem mapGet_incrementCount_self (m : CountMap) (k a : Nat) :
    mapGet (incrementCount m k a) k = mapGet m k + a := by
  simp [incrementCount, mapGet_mapSet_self]

theorem lookupUser_setUser_self (us : List (String × UserRateLimit))
    (u : String) (r : UserRateLimit) :
    lookupUser (setUser us u r) u = some r := by
  induction us with
  | nil => simp [setUser, lookupUser]
  | cons hd tl ih =>
      obtain ⟨u₀, r₀⟩ := hd
      by_cases h : u₀ = u
      · simp [setUser, lookupUser, h]
      · simp [setUser, lookupUser, h, ih]

theorem lookupUser_setUser_ne (us : List (String × UserRateLimit))
    (u u' : String) (r : UserRateLimit) (h : u' ≠ u) :
    lookupUser (setUser us u r) u' = lookupUser us u' := by
  induction us with
  | nil => simp [setUser, lookupUser, Ne.symm h]
  | cons hd tl ih =>
      obtain ⟨u₀, r₀⟩ := hd
      by_cases h0 : u₀ = u
      · subst h0
        simp [setUser, lookupUser, Ne.symm h]
      · by_cases h1 : u₀ = u'
        · simp [setUser, lookupUser, h0, h1, h]
        · simp [setUser, lookupUser, h0, h1, ih]

theorem limits_recordRequest (st : RateLimiterState) (u : String) (tc now : Nat) :
    (recordRequest st u tc now).limits = st.limits := rfl

theorem getUserView_recordRequest_other (st : RateLimiterState) (u u' : String)
    (tc now n : Nat) (h : u' ≠ u) :
    getUserView (recordRequest st u tc now) u' n = getUserView st u' n := by
  simp [getUserView, recordRequest, lookupUser_setUser_ne _ _ _ _ h]

theorem recordRequest_reqMin (st : RateLimiterState) (u : String) (tc now n : Nat) :
    (getUserView (recordRequest st u tc now) u n).requestsPerMinute =
      incrementCount (getUserView st u now).requestsPerMinute (now / 60000) 1 := by
  simp only [getUserView, recordRequest, lookupUser_setUser_self, Option.getD_some]
  split <;> rfl

theorem recordRequest_reqHour (st : RateLimiterState) (u : String) (tc now n : Nat) :
    (getUserView (recordRequest st u tc now) u n).requestsPerHour =
      incrementCount (getUserView st u now).requestsPerHour (now / 3600000) 1 := by
  simp only [getUserView, recordRequest, lookupUser_setUser_self, Option.getD_some]
  split <;> rfl

theorem recordRequest_reqDay (st : RateLimiterState) (u : String) (tc now n : Nat) :
    (getUserView (recordRequest st u tc now) u n).requestsPerDay =
      incrementCount (getUserView st u now).requestsPerDay (now / 86400000) 1 := by
  simp only [getUserView, recordRequest, lookupUser_setUser_self, Option.getD_some]
  split <;> rfl

theorem recordRequest_tokMin (st : RateLimiterState) (u : String) (tc now n : Nat) :
    (getUserView (recordRequest st u tc now) u n).tokensPerMinute =
      (if tc > 0 then
        incrementCount (getUserView st u now).tokensPerMinute (now / 60000) tc
       else (getUserView st u now).tokensPerMinute) := by
  simp only [getUserView, recordRequest, lookupUser_setUser_self, Option.getD_some]
  split <;> rfl

theorem recordRequest_tokHour (st : RateLimiterState) (u : String) (tc now n : Nat) :
    (getUserView (recordRequest st u tc now) u n).tokensPerHour =
      (if tc > 0 then
        incrementCount (getUserView st u now).tokensPerHour (now / 3600000) tc
       else (getUserView st u now).tokensPerHour) := by
  simp only [getUserView, recordRequest, lookupUser_setUser_self, Option.getD_some]
  split <;> rfl

theorem recordRequest_tokDay (st : RateLimiterState) (u : String) (tc now n : Nat) :
    (getUserView (recordRequest st u tc now) u n).tokensPerDay =
      (if tc > 0 then
        incrementCount (getUserView st u now).tokensPerDay (now / 86400000) tc
       else (getUserView st u now).tokensPerDay) := by
  simp only [getUserView, recordRequest, lookupUser_setUser_self, Option.getD_some]
  split <;> rfl

theorem getUserView_reqMin_time (st : RateLimiterState) (u : String) (a b : Nat) :
    (getUserView st u a).requestsPerMinute = (getUserView st u b).requestsPerMinute := by
  unfold getUserView
  cases lookupUser st.userLimits u <;> rfl

theorem foldRecord_minCount (u : String) (k n : Nat) :
    ∀ (ts : List Nat) (st : RateLimiterState), (∀ t ∈ ts, t / 60000 = k) →
      mapGet (getUserView (ts.foldl (fun s t => recordRequest s u 0 t) st) u n).requestsPerMinute k
        = mapGet (getUserView st u n).requestsPerMinute k + ts.length := by
  intro ts
  induction ts with
  | nil => intro st _; simp
  | cons t ts ih =>
      intro st hks
      have hk : t / 60000 = k := hks t (by simp)
      have hrest : ∀ x ∈ ts, x / 60000 = k := fun x hx => hks x (by simp [hx])
      simp only [List.foldl_cons]
      rw [ih (recordRequest st u 0 t) hrest, recordRequest_reqMin, hk,
        mapGet_incrementCount_self,
        getUserView_reqMin_time st u t n, List.length_cons]
      omega

/-! ## C1 -/

/-- C1: when `checkLimit` reports `isLimited`, the router's `chat` fails with
the rate-limit error whose message carries `ceil(nextAvailableIn/1000)`
seconds, the adapter is never invoked and no usage is recorded; `chatStream`
delivers a single `error` chunk with the same message and returns without
invoking the adapter. -/
theorem C1_router_rate_limit_gate (st : ManagerState) (userId : String)
    (provider : Option String) (adapterResult : Except String AIProviderResponse)
    (adapterChunks : List StreamChunk) (adapterThrows : Option String) (now : Nat)
    (h : (checkLimit st.rateLimiter userId now).isLimited = true) :
    managerChat st userId provider adapterResult now =
      ⟨Except.error ("Rate limit exceeded. Try again in " ++
          toString (ceilDiv1000 ((checkLimit st.rateLimiter userId now).nextAvailableIn.getD 0)) ++
          " seconds"),
        st.rateLimiter, false⟩ ∧
    managerChatStream st userId provider adapterChunks adapterThrows now =
      ⟨[errorChunk ("Rate limit exceeded. Try again in " ++
          toString (ceilDiv1000 ((checkLimit st.rateLimiter userId now).nextAvailableIn.getD 0)) ++
          " seconds")],
        st.rateLimiter, false, Except.ok ()⟩ := by
  constructor <;> simp [managerChat, managerChatStream, h, rateLimitMessage]

/-- A manager whose rate limiter is saturated for user `u1` in the current
minute bucket at time 0 (20 requests recorded, matching the default
ceiling). -/
def saturatedManager : ManagerState :=
  { providers := ["openai"]
    defaultProvider := "openai"
    rateLimiter :=
      { limits := rateLimiterDefault.limits
        userLimits := [("u1",
          { requestsPerMinute := [(0, 20)], requestsPerHour := [(0, 20)],
            requestsPerDay := [(0, 20)], tokensPerMinute := [], tokensPerHour := [],
            tokensPerDay := [], lastResetTime := 0 })] } }

theorem C1_router_rate_limit_gate_witness :
    (checkLimit saturatedManager.rateLimiter "u1" 0).isLimited = true ∧
    (managerChat saturatedManager "u1" none
        (Except.ok ⟨"hello", "gpt-4", none, none⟩) 0 =
      ⟨Except.error ("Rate limit exceeded. Try again in " ++
          toString (ceilDiv1000 ((checkLimit saturatedManager.rateLimiter "u1" 0).nextAvailableIn.getD 0)) ++
          " seconds"),
        saturatedManager.rateLimiter, false⟩ ∧
    managerChatStream saturatedManager "u1" none [] none 0 =
      ⟨[errorChunk ("Rate limit exceeded. Try again in " ++
          toString (ceilDiv1000 ((checkLimit saturatedManager.rateLimiter "u1" 0).nextAvailableIn.getD 0)) ++
          " seconds")],
        saturatedManager.rateLimiter, false, Except.ok ()⟩) :=
  ⟨by decide,
   C1_router_rate_limit_gate saturatedManager "u1" none
     (Except.ok ⟨"hello", "gpt-4", none, none⟩) [] none 0 (by decide)⟩

theorem limits_foldRecord (u : String) :
    ∀ (ts : List Nat) (st : RateLimiterState),
      (ts.foldl (fun s t => recordRequest s u 0 t) st).limits = st.limits := by
  intro ts
  induction ts with
  | nil => intro st; rfl
  | cons t ts ih =>
      intro st
      simp only [List.foldl_cons]
      rw [ih (recordRequest st u 0 t), limits_recordRequest]

/-! ## C2 -/

/-- C2: `checkLimit` checks the request windows in the order minute, hour,
day; the first at-or-over window yields `isLimited` with
`nextAvailableIn = windowSizeMs - now % windowSizeMs`; otherwise the result
is a remaining-quota snapshot (`ceiling - used` for all three request
windows); an absent user counts as zero usage; and a fresh limiter that
recorded exactly `requestsPerMinute` requests inside one minute bucket is
limited with `0 < nextAvailableIn ≤ 60000`. -/
theorem C2_checkLimit_windows (st : RateLimiterState) (userId : String) (now : Nat)
    (mr hr dr rpm rph rpd : Nat)
    (hmr : mapGet (getUserView st userId now).requestsPerMinute (now / 60000) = mr)
    (hhr : mapGet (getUserView st userId now).requestsPerHour (now / 3600000) = hr)
    (hdr : mapGet (getUserView st userId now).requestsPerDay (now / 86400000) = dr)
    (hrpm : st.limits.requestsPerMinute.getD 20 = rpm)
    (hrph : st.limits.requestsPerHour.getD 200 = rph)
    (hrpd : st.limits.requestsPerDay.getD 1000 = rpd) :
    (mr ≥ rpm → checkLimit st userId now =
      ⟨true, some (60000 - now % 60000), none⟩) ∧
    (mr < rpm → hr ≥ rph → checkLimit st userId now =
      ⟨true, some (3600000 - now % 3600000), none⟩) ∧
    (mr < rpm → hr < rph → dr ≥ rpd → checkLimit st userId now =
      ⟨true, some (86400000 - now % 86400000), none⟩) ∧
    (mr < rpm → hr < rph → dr < rpd → checkLimit st userId now =
      ⟨false, none, some ⟨rpm - mr, rph - hr, rpd - dr⟩⟩) ∧
    (lookupUser st.userLimits userId = none → mr = 0 ∧ hr = 0 ∧ dr = 0) ∧
    (∀ (cfg : ProviderRateLimitConfig) (user : String) (ts : List Nat),
      ts.length = cfg.requestsPerMinute.getD 20 →
      (∀ t ∈ ts, t / 60000 = now / 60000) →
      checkLimit (ts.foldl (fun s t => recordRequest s user 0 t) (rateLimiterInit cfg)) user now =
        ⟨true, some (60000 - now % 60000), none⟩ ∧
      0 < 60000 - now % 60000 ∧ 60000 - now % 60000 ≤ 60000) := by
  subst hmr hhr hdr hrpm hrph hrpd
  refine ⟨?_, ?_, ?_, ?_, ?_, ?_⟩
  · intro h1
    simp [checkLimit, h1]
  · intro h1 h2
    have h1' : ¬ (mapGet (getUserView st userId now).requestsPerMinute (now / 60000) ≥
        st.limits.requestsPerMinute.getD 20) := by omega
    simp [checkLimit, h1', h2]
  · intro h1 h2 h3
    have h1' : ¬ (mapGet (getUserView st userId now).requestsPerMinute (now / 60000) ≥
        st.limits.requestsPerMinute.getD 20) := by omega
    have h2' : ¬ (mapGet (getUserView st userId now).requestsPerHour (now / 3600000) ≥
        st.limits.requestsPerHour.getD 200) := by omega
    simp [checkLimit, h1', h2', h3]
  · intro h1 h2 h3
    have h1' : ¬ (mapGet (getUserView st userId now).requestsPerMinute (now / 60000) ≥
        st.limits.requestsPerMinute.getD 20) := by omega
    have h2' : ¬ (mapGet (getUserView st userId now).requestsPerHour (now / 3600000) ≥
        st.limits.requestsPerHour.getD 200) := by omega
    have h3' : ¬ (mapGet (getUserView st userId now).requestsPerDay (now / 86400000) ≥
        st.limits.requestsPerDay.getD 1000) := by omega
    simp [checkLimit, h1', h2', h3']
  · intro habs
    simp [getUserView, habs, freshUserLimit, mapGet]
  · intro cfg user ts hlen hts
    have hcount := foldRecord_minCount user (now / 60000) now ts (rateLimiterInit cfg) hts
    have hfresh : mapGet (getUserView (rateLimiterInit cfg) user now).requestsPerMinute
        (now / 60000) = 0 := by
      simp [getUserView, rateLimiterInit, lookupUser, freshUserLimit, mapGet]
    have hlim := limits_foldRecord user ts (rateLimiterInit cfg)
    have hge : mapGet (getUserView
          (ts.foldl (fun s t => recordRequest s user 0 t) (rateLimiterInit cfg)) user now).requestsPerMinute
          (now / 60000) ≥
        (ts.foldl (fun s t => recordRequest s user 0 t)
          (rateLimiterInit cfg)).limits.requestsPerMinute.getD 20 := by
      rw [hcount, hfresh, hlim]
      simp only [rateLimiterInit, Option.getD_some]
      omega
    exact ⟨by simp [checkLimit, hge], by omega, by omega⟩

theorem C2_checkLimit_windows_witness :
    checkLimit rateLimiterDefault "u1" 0 = ⟨false, none, some ⟨20, 200, 1000⟩⟩ :=
  ((C2_checkLimit_windows rateLimiterDefault "u1" 0 0 0 0 20 200 1000
      rfl rfl rfl rfl rfl rfl).2.2.2.1) (by omega) (by omega) (by omega)

/-! ## C3 -/

/-- C3: `recordRequest` bumps the current minute/hour/day request buckets by
exactly 1 and the token buckets by exactly `tokenCount` (token maps are
untouched when `tokenCount = 0`); no other user's state changes; and an
immediate `getRemainingUsage` shows every request `used` up by 1 and every
token `used` up by `tokenCount`, with all limits unchanged. -/
theorem C3_recordRequest_increments (st : RateLimiterState) (u : String)
    (tc now : Nat) :
    mapGet (getUserView (recordRequest st u tc now) u now).requestsPerMinute (now / 60000)
      = mapGet (getUserView st u now).requestsPerMinute (now / 60000) + 1 ∧
    mapGet (getUserView (recordRequest st u tc now) u now).requestsPerHour (now / 3600000)
      = mapGet (getUserView st u now).requestsPerHour (now / 3600000) + 1 ∧
    mapGet (getUserView (recordRequest st u tc now) u now).requestsPerDay (now / 86400000)
      = mapGet (getUserView st u now).requestsPerDay (now / 86400000) + 1 ∧
    mapGet (getUserView (recordRequest st u tc now) u now).tokensPerMinute (now / 60000)
      = mapGet (getUserView st u now).tokensPerMinute (now / 60000) + tc ∧
    mapGet (getUserView (recordRequest st u tc now) u now).tokensPerHour (now / 3600000)
      = mapGet (getUserView st u now).tokensPerHour (now / 3600000) + tc ∧
    mapGet (getUserView (recordRequest st u tc now) u now).tokensPerDay (now / 86400000)
      = mapGet (getUserView st u now).tokensPerDay (now / 86400000) + tc ∧
    (tc = 0 →
      (getUserView (recordRequest st u tc now) u now).tokensPerMinute
          = (getUserView st u now).tokensPerMinute ∧
      (getUserView (recordRequest st u tc now) u now).tokensPerHour
          = (getUserView st u now).tokensPerHour ∧
      (getUserView (recordRequest st u tc now) u now).tokensPerDay
          = (getUserView st u now).tokensPerDay) ∧
    (∀ u', u' ≠ u →
      getUserView (recordRequest st u tc now) u' now = getUserView st u' now) ∧
    getRemainingUsage (recordRequest st u tc now) u now =
      { requestsPerMinute := ⟨(getRemainingUsage st u now).requestsPerMinute.used + 1,
          (getRemainingUsage st u now).requestsPerMinute.limit⟩
        requestsPerHour := ⟨(getRemainingUsage st u now).requestsPerHour.used + 1,
          (getRemainingUsage st u now).requestsPerHour.limit⟩
        requestsPerDay := ⟨(getRemainingUsage st u now).requestsPerDay.used + 1,
          (getRemainingUsage st u now).requestsPerDay.limit⟩
        tokensPerMinute := ⟨(getRemainingUsage st u now).tokensPerMinute.used + tc,
          (getRemainingUsage st u now).tokensPerMinute.limit⟩
        tokensPerHour := ⟨(getRemainingUsage st u now).tokensPerHour.used + tc,
          (getRemainingUsage st u now).tokensPerHour.limit⟩
        tokensPerDay := ⟨(getRemainingUsage st u now).tokensPerDay.used + tc,
          (getRemainingUsage st u now).tokensPerDay.limit⟩ } := by
  have hmin := recordRequest_reqMin st u tc now now
  have hhour := recordRequest_reqHour st u tc now now
  have hday := recordRequest_reqDay st u tc now now
  have htokMin : mapGet (getUserView (recordRequest st u tc now) u now).tokensPerMinute (now / 60000)
      = mapGet (getUserView st u now).tokensPerMinute (now / 60000) + tc := by
    rw [recordRequest_tokMin]
    by_cases htc : tc > 0
    · simp [htc, mapGet_incrementCount_self]
    · have : tc = 0 := by omega
      simp [htc, this]
  have htokHour : mapGet (getUserView (recordRequest st u tc now) u now).tokensPerHour (now / 3600000)
      = mapGet (getUserView st u now).tokensPerHour (now / 3600000) + tc := by
    rw [recordRequest_tokHour]
    by_cases htc : tc > 0
    · simp [htc, mapGet_incrementCount_self]
    · have : tc = 0 := by omega
      simp [htc, this]
  have htokDay : mapGet (getUserView (recordRequest st u tc now) u now).tokensPerDay (now / 86400000)
      = mapGet (getUserView st u now).tokensPerDay (now / 86400000) + tc := by
    rw [recordRequest_tokDay]
    by_cases htc : tc > 0
    · simp [htc, mapGet_incrementCount_self]
    · have : tc = 0 := by omega
      simp [htc, this]
  refine ⟨by rw [hmin, mapGet_incrementCount_self],
          by rw [hhour, mapGet_incrementCount_self],
          by rw [hday, mapGet_incrementCount_self],
          htokMin, htokHour, htokDay, ?_, ?_, ?_⟩
  · intro htc0
    subst htc0
    refine ⟨?_, ?_, ?_⟩ <;>
      simp [recordRequest_tokMin, recordRequest_tokHour, recordRequest_tokDay]
  · intro u' hu'
    exact getUserView_recordRequest_other st u u' tc now now hu'
  · simp only [getRemainingUsage, limits_recordRequest, hmin, hhour, hday,
      mapGet_incrementCount_self, htokMin, htokHour, htokDay]

theorem C3_recordRequest_increments_witness :
    mapGet (getUserView (recordRequest rateLimiterDefault "u1" 7 5000) "u1" 5000).requestsPerMinute 0
        = mapGet (getUserView rateLimiterDefault "u1" 5000).requestsPerMinute 0 + 1 ∧
    getUserView (recordRequest rateLimiterDefault "u1" 7 5000) "other" 5000
        = getUserView rateLimiterDefault "other" 5000 ∧
    (getRemainingUsage (recordRequest rateLimiterDefault "u1" 7 5000) "u1" 5000).tokensPerMinute.used
        = (getRemainingUsage rateLimiterDefault "u1" 5000).tokensPerMinute.used + 7 := by
  have h := C3_recordRequest_increments rateLimiterDefault "u1" 7 5000
  refine ⟨h.1, h.2.2.2.2.2.2.2.1 "other" (by decide), ?_⟩
  rw [h.2.2.2.2.2.2.2.2]

/-! ## C8 -/

/-- C8: `checkLimit` is independent of the token counters: two limiter
states with the same configuration and the same request-counter maps for the
queried user produce identical results, whatever their token maps hold. -/
theorem C8_checkLimit_token_independent (st1 st2 : RateLimiterState)
    (u : String) (now : Nat)
    (hlim : st1.limits = st2.limits)
    (hm : (getUserView st1 u now).requestsPerMinute = (getUserView st2 u now).requestsPerMinute)
    (hh : (getUserView st1 u now).requestsPerHour = (getUserView st2 u now).requestsPerHour)
    (hd : (getUserView st1 u now).requestsPerDay = (getUserView st2 u now).requestsPerDay) :
    checkLimit st1 u now = checkLimit st2 u now := by
  simp only [checkLimit, hm, hh, hd, hlim]

/-- A limiter with some request usage and large token usage for `u1`. -/
def c8StateA : RateLimiterState :=
  { limits := rateLimiterDefault.limits
    userLimits := [("u1",
      { requestsPerMinute := [(0, 3)], requestsPerHour := [(0, 3)],
        requestsPerDay := [(0, 3)], tokensPerMinute := [(0, 999999)],
        tokensPerHour := [(0, 999999)], tokensPerDay := [(0, 999999)],
        lastResetTime := 0 })] }

/-- The same limiter with all token maps empty. -/
def c8StateB : RateLimiterState :=
  { limits := rateLimiterDefault.limits
    userLimits := [("u1",
      { requestsPerMinute := [(0, 3)], requestsPerHour := [(0, 3)],
        requestsPerDay := [(0, 3)], tokensPerMinute := [],
        tokensPerHour := [], tokensPerDay := [],
        lastResetTime := 0 })] }

theorem C8_checkLimit_token_independent_witness :
    c8StateA.limits = c8StateB.limits ∧
    checkLimit c8StateA "u1" 0 = checkLimit c8StateB "u1" 0 :=
  ⟨rfl, C8_checkLimit_token_independent c8StateA c8StateB "u1" 0 rfl rfl rfl rfl⟩

/-! ## C9 -/

theorem getLastD_cons (a d : Nat) (l : List Nat) :
    (a :: l).getLast?.getD d = l.getLast?.getD a := by
  induction l generalizing a d with
  | nil => rfl
  | cons b t ih => rw [List.getLast?_cons_cons, ih b d, ih b a]

theorem foldKeepLast_getLast (l : List Nat) :
    ∀ acc : Nat, l.foldl (fun _ t => t) acc = l.getLast?.getD acc := by
  induction l with
  | nil => intro acc; rfl
  | cons t l ih =>
      intro acc
      rw [List.foldl_cons, ih t, getLastD_cons]

theorem foldNonzero_filter (l : List Nat) :
    ∀ acc : Nat,
      l.foldl (fun acc t => if t ≠ 0 then t else acc) acc
        = (l.filter (fun t => t != 0)).foldl (fun _ t => t) acc := by
  induction l with
  | nil => intro acc; rfl
  | cons t l ih =>
      intro acc
      rw [List.foldl_cons, List.filter_cons]
      by_cases ht : t = 0
      · subst ht
        simpa using ih acc
      · have hb : (t != 0) = true := by simpa using ht
        rw [if_pos ht, if_pos hb, List.foldl_cons]
        exact ih t

theorem capturedTotal_filterMap (chunks : List StreamChunk) :
    ∀ acc : Nat,
      chunks.foldl
        (fun acc c =>
          match c.usage with
          | some u => if u.totalTokens ≠ 0 then u.totalTokens else acc
          | none => acc) acc
      = (chunks.filterMap (fun c => c.usage.map Usage.totalTokens)).foldl
          (fun acc t => if t ≠ 0 then t else acc) acc := by
  induction chunks with
  | nil => intro acc; rfl
  | cons c cs ih =>
      intro acc
      rw [List.foldl_cons, List.filterMap_cons]
      cases hu : c.usage with
      | none =>
          simp only [hu, Option.map_none']
          exact ih acc
      | some u =>
          simp only [hu, Option.map_some', List.foldl_cons]
          exact ih _

theorem capturedTotal_eq_lastNonzeroTotal (chunks : List StreamChunk) :
    capturedTotal chunks = lastNonzeroTotal chunks := by
  rw [capturedTotal, lastNonzeroTotal, capturedTotal_filterMap chunks 0,
    foldNonzero_filter, foldKeepLast_getLast]

/-- C9 (as amended): a completed `chatStream` delivers the adapter's chunks
unchanged and records usage via exactly one `recordRequest`, whose token
count is the last non-zero `usage.totalTokens` observed among the chunks (0
if none — a chunk carrying `usage.totalTokens = 0` does not overwrite an
earlier non-zero value); `getRemainingUsage` afterwards shows exactly one
request increment and exactly that token increment. -/
theorem C9_stream_usage_recorded_once (st : ManagerState) (userId : String)
    (provider : Option String) (chunks : List StreamChunk) (now : Nat)
    (hnl : (checkLimit st.rateLimiter userId now).isLimited = false)
    (hp : (resolveProvider st provider).isSome = true) :
    managerChatStream st userId provider chunks none now =
      ⟨chunks, recordRequest st.rateLimiter userId (capturedTotal chunks) now,
        true, Except.ok ()⟩ ∧
    capturedTotal chunks = lastNonzeroTotal chunks ∧
    (getRemainingUsage (recordRequest st.rateLimiter userId (capturedTotal chunks) now)
        userId now).tokensPerMinute.used
      = (getRemainingUsage st.rateLimiter userId now).tokensPerMinute.used +
          lastNonzeroTotal chunks ∧
    (getRemainingUsage (recordRequest st.rateLimiter userId (capturedTotal chunks) now)
        userId now).requestsPerMinute.used
      = (getRemainingUsage st.rateLimiter userId now).requestsPerMinute.used + 1 := by
  obtain ⟨p, hp'⟩ := Option.isSome_iff_exists.mp hp
  refine ⟨by simp [managerChatStream, hnl, hp'],
          capturedTotal_eq_lastNonzeroTotal chunks, ?_, ?_⟩
  · rw [← capturedTotal_eq_lastNonzeroTotal]
    simp only [getRemainingUsage]
    rw [recordRequest_tokMin]
    by_cases htc : capturedTotal chunks > 0
    · simp [htc, mapGet_incrementCount_self]
    · have h0 : capturedTotal chunks = 0 := by omega
      simp [htc, h0]
  · simp only [getRemainingUsage]
    rw [recordRequest_reqMin, mapGet_incrementCount_self]

/-- A registered manager over the default limiter, used by witnesses. -/
def freshManager : ManagerState :=
  { providers := ["openai"], defaultProvider := "openai",
    rateLimiter := rateLimiterDefault }

/-- Chunks whose final chunk carries a cumulative `usage.totalTokens` of 0
after an earlier chunk reported 5. -/
def c9CexChunks : List StreamChunk :=
  [⟨ChunkKind.text, some "h", none, some ⟨1, 4, 5⟩⟩,
   ⟨ChunkKind.ending, none, none, some ⟨0, 0, 0⟩⟩]

theorem C9_counterexample :
    lastCarriedTotal c9CexChunks = 0 ∧
    capturedTotal c9CexChunks = 5 ∧
    (getRemainingUsage
        (managerChatStream freshManager "u1" none c9CexChunks none 0).rateLimiter
        "u1" 0).tokensPerMinute.used = 5 :=
  ⟨rfl, rfl, rfl⟩

theorem C9_stream_usage_recorded_once_witness :
    (checkLimit freshManager.rateLimiter "u1" 0).isLimited = false ∧
    (resolveProvider freshManager none).isSome = true ∧
    managerChatStream freshManager "u1" none c9CexChunks none 0 =
      ⟨c9CexChunks, recordRequest freshManager.rateLimiter "u1"
          (capturedTotal c9CexChunks) 0, true, Except.ok ()⟩ :=
  ⟨by decide, by decide,
   (C9_stream_usage_recorded_once freshManager "u1" none c9CexChunks 0
      (by decide) (by decide)).1⟩

/-! ## C10 -/

theorem anthropicConvert_spec (msgs : List Msg) :
    anthropicConvertMessages msgs =
      (((msgs.filter (fun m => m.role == "system")).getLast?).map Msg.content,
       msgs.filter (fun m => !(m.role == "system"))) := by
  induction msgs using List.reverseRecOn with
  | nil => rfl
  | append_singleton ms m ih =>
      simp only [anthropicConvertMessages] at ih ⊢
      rw [List.foldl_append, ih]
      by_cases hm : m.role = "system"
      · simp [hm, List.filter_append, List.getLast?_concat]
      · simp [hm, List.filter_append]

theorem googleConvert_spec (msgs : List Msg) :
    googleConvertMessages msgs =
      (((msgs.filter (fun m => m.role == "system")).getLast?).map
          (fun m => [(⟨m.content⟩ : GooglePart)]),
       (msgs.filter (fun m => !(m.role == "system"))).map
          (fun m => (⟨if m.role == "assistant" then "model" else "user",
                      [⟨m.content⟩]⟩ : GoogleContent))) := by
  induction msgs using List.reverseRecOn with
  | nil => rfl
  | append_singleton ms m ih =>
      simp only [googleConvertMessages] at ih ⊢
      rw [List.foldl_append, ih]
      by_cases hm : m.role = "system"
      · simp [hm, List.filter_append, List.getLast?_concat]
      · simp [hm, List.filter_append]

/-- C10: both `convertMessages` implementations forward at most one system
instruction — the content of the last system-role message (none when there
is none) — and forward all non-system messages in their original relative
order (Google renaming `assistant` to `model`). -/
theorem C10_convert_last_system_wins (msgs : List Msg) :
    (anthropicConvertMessages msgs).1 =
      ((msgs.filter (fun m => m.role == "system")).getLast?).map Msg.content ∧
    (anthropicConvertMessages msgs).2 =
      msgs.filter (fun m => !(m.role == "system")) ∧
    (googleConvertMessages msgs).1 =
      ((msgs.filter (fun m => m.role == "system")).getLast?).map
        (fun m => [(⟨m.content⟩ : GooglePart)]) ∧
    (googleConvertMessages msgs).2 =
      (msgs.filter (fun m => !(m.role == "system"))).map
        (fun m => (⟨if m.role == "assistant" then "model" else "user",
                    [⟨m.content⟩]⟩ : GoogleContent)) := by
  refine ⟨?_, ?_, ?_, ?_⟩
  · rw [anthropicConvert_spec]
  · rw [anthropicConvert_spec]
  · rw [googleConvert_spec]
  · rw [googleConvert_spec]

/-! ## C5 / C6: normalizer lemmas -/

theorem getProp_ok (m : JsVal) (k : String) (h : notNullish m = true) :
    getProp m k = Except.ok (propOf m k) := by
  cases m <;> simp_all [notNullish, getProp]

theorem resolveMsg_ok (m : JsVal) (h : notNullish m = true) :
    resolveMsg m =
      Except.ok ⟨resolveRole m, jsTrim (resolveContentRest m (propOf m "content"))⟩ := by
  rw [resolveMsg, resolveContent, getProp_ok m "content" h]

theorem mapM_resolveMsg (ms : List JsVal) (h : ∀ m ∈ ms, notNullish m = true) :
    ms.mapM resolveMsg =
      Except.ok (ms.map
        (fun m => (⟨resolveRole m, jsTrim (resolveContentRest m (propOf m "content"))⟩ : Msg))) := by
  induction ms with
  | nil => rfl
  | cons m ms ih =>
      have hm : notNullish m = true := h m (by simp)
      have hms : ∀ x ∈ ms, notNullish x = true := fun x hx => h x (by simp [hx])
      rw [List.mapM_cons, resolveMsg_ok m hm, ih hms, List.map_cons]
      rfl

theorem dropWhile_idem (p : Char → Bool) (l : List Char) :
    List.dropWhile p (List.dropWhile p l) = List.dropWhile p l := by
  induction l with
  | nil => rfl
  | cons c l ih =>
      rw [List.dropWhile_cons]
      by_cases hc : p c = true
      · simp [hc, ih]
      · simp only [hc]
        rw [if_neg (by simp [hc]), List.dropWhile_cons, if_neg (by simp [hc])]

theorem dropWhile_trimRight (p : Char → Bool) (l : List Char)
    (h : List.dropWhile p l = l) :
    List.dropWhile p (trimRightList l) = trimRightList l := by
  cases l with
  | nil => rfl
  | cons c r =>
      have hc : p c = false := by
        by_cases hp : p c = true
        · exfalso
          rw [List.dropWhile_cons, if_pos hp] at h
          have hlen := (List.dropWhile_sublist (l := r) p).length_le
          have := congrArg List.length h
          simp at this
          omega
        · simpa using hp
      rw [trimRightList]
      by_cases he : (trimRightList r).isEmpty && jsWhitespace c
      · simp [he]
      · simp only [he, if_neg, Bool.false_eq_true, ite_false]
        rw [List.dropWhile_cons, if_neg (by simp [hc])]

theorem trimRight_idem (l : List Char) :
    trimRightList (trimRightList l) = trimRightList l := by
  induction l with
  | nil => rfl
  | cons c r ih =>
      rw [trimRightList]
      by_cases he : (trimRightList r).isEmpty && jsWhitespace c
      · simp [he, trimRightList]
      · simp only [he, Bool.false_eq_true, ite_false]
        rw [trimRightList, ih]
        have : ((trimRightList r).isEmpty && jsWhitespace c) = false := by
          simpa using he
        rw [this]
        simp

theorem jsTrim_idem (s : String) : jsTrim (jsTrim s) = jsTrim s := by
  have h1 : (jsTrim s).toList = trimRightList (s.toList.dropWhile jsWhitespace) := rfl
  rw [jsTrim, h1, dropWhile_trimRight jsWhitespace _ (dropWhile_idem jsWhitespace s.toList),
    trimRight_idem]
  rfl

/-- C5 counterexample input: a batch containing a `null` entry. -/
def c5CexBatch : JsVal := JsVal.jsArr [JsVal.jsNull]

theorem C5_counterexample :
    normalizeMessages c5CexBatch =
      Except.error "TypeError: cannot read properties of null (reading content)" := rfl

/-- C5 (as amended): for every inbound array whose entries are all non-null
and non-undefined, `normalizeMessages` returns normally, its output is no
longer than its input, and every output message has non-empty, already
trimmed content.  (A `null`/`undefined` entry makes the unguarded
`typeof m.content` read throw, so the unconditional claim fails.) -/
theorem C5_normalizer_total (ms : List JsVal)
    (h : ∀ m ∈ ms, notNullish m = true) :
    ∃ out, normalizeMessages (JsVal.jsArr ms) = Except.ok out ∧
      out.length ≤ ms.length ∧
      ∀ mm ∈ out, jsTrim mm.content = mm.content ∧ mm.content ≠ "" := by
  refine ⟨_, by rw [normalizeMessages, mapM_resolveMsg ms h], ?_, ?_⟩
  · exact le_trans (List.length_filter_le _ _) (by rw [List.length_map])
  · intro mm hmm
    have hmem := (List.mem_filter.mp hmm).1
    have hne : (mm.content != "") = true := (List.mem_filter.mp hmm).2
    obtain ⟨m, _, hm⟩ := List.mem_map.mp hmem
    constructor
    · rw [← hm]
      exact jsTrim_idem _
    · simpa using hne

theorem C5_normalizer_total_witness :
    (∀ m ∈ [JsVal.jsObj [("content", JsVal.jsStr "  hi  ")], JsVal.jsNum 3],
      notNullish m = true) ∧
    ∃ out,
      normalizeMessages (JsVal.jsArr
        [JsVal.jsObj [("content", JsVal.jsStr "  hi  ")], JsVal.jsNum 3]) = Except.ok out ∧
      out.length ≤ 2 ∧
      ∀ mm ∈ out, jsTrim mm.content = mm.content ∧ mm.content ≠ "" :=
  ⟨by intro m hm; fin_cases hm <;> rfl,
   C5_normalizer_total _ (by intro m hm; fin_cases hm <;> rfl)⟩

theorem resolveRole_eq_claimRole (m : JsVal) : resolveRole m = claimRole m := by
  rw [resolveRole, claimRole]
  cases hr : propOf m "role" with
  | jsStr s =>
      by_cases hs : s = ""
      · subst hs
        simp [jsTruthy, isStringV, asString, allowedRoles]
      · simp [jsTruthy, isStringV, asString, hs]
  | jsNull => simp [jsTruthy, isStringV]
  | jsUndef => simp [jsTruthy, isStringV]
  | jsNum n => simp [jsTruthy, isStringV]
  | jsBool b => simp [jsTruthy, isStringV]
  | jsArr xs => simp [jsTruthy, isStringV]
  | jsObj fs => simp [jsTruthy, isStringV]

theorem resolveContentRest_eq_amended (m : JsVal) :
    resolveContentRest m (propOf m "content") = claimContentAmended m := rfl

/-- C6 counterexample input: `content` is an object with none of the
recognized shapes. -/
def c6CexBatch : List JsVal := [JsVal.jsObj [("content", JsVal.jsObj [])]]

theorem C6_counterexample :
    normalizeMessages (JsVal.jsArr c6CexBatch) =
      Except.ok [⟨"user", "\x7b\x7d"⟩] ∧
    claimNormalizeOrig c6CexBatch = [] :=
  ⟨rfl, rfl⟩

/-- C6 (as amended): the normalizer resolves content in the claimed order,
except that for a truthy object `content` with none of the recognized shapes
the result is `JSON.stringify(content)` (not the empty string), and the
top-level `text` field is consulted only when `content` is not a truthy
object.  Roles default to `user` outside `{system, user, assistant}`,
content is trimmed, empty messages are dropped, and
`[{content:{parts:['a','b']}}]` yields `[{role:'user', content:'ab'}]`. -/
theorem C6_content_resolution (ms : List JsVal)
    (h : ∀ m ∈ ms, notNullish m = true) :
    normalizeMessages (JsVal.jsArr ms) = Except.ok (claimNormalizeAmended ms) ∧
    normalizeMessages (JsVal.jsArr [JsVal.jsObj [("content",
        JsVal.jsObj [("parts", JsVal.jsArr [JsVal.jsStr "a", JsVal.jsStr "b"])])]]) =
      Except.ok [⟨"user", "ab"⟩] := by
  constructor
  · rw [normalizeMessages, mapM_resolveMsg ms h, claimNormalizeAmended]
    have hfun : (fun m => (⟨resolveRole m,
          jsTrim (resolveContentRest m (propOf m "content"))⟩ : Msg)) =
        (fun m => (⟨claimRole m, jsTrim (claimContentAmended m)⟩ : Msg)) :=
      funext fun m => by rw [resolveRole_eq_claimRole, resolveContentRest_eq_amended]
    rw [hfun]
  · rfl

theorem C6_content_resolution_witness :
    (∀ m ∈ c6CexBatch, notNullish m = true) ∧
    normalizeMessages (JsVal.jsArr c6CexBatch) =
      Except.ok (claimNormalizeAmended c6CexBatch) :=
  ⟨by intro m hm; fin_cases hm; rfl,
   (C6_content_resolution c6CexBatch (by intro m hm; fin_cases hm; rfl)).1⟩

/-! ## C7 -/

/-- A canonical successful vendor response used by concrete C7 inputs. -/
def c7GoodResp : AIProviderResponse :=
  ⟨"fine", "m", some ⟨3, 4, 7⟩, some "stop"⟩

/-- A vendor that rejects the first attempt with a temperature-unsupported
message and accepts a second attempt. -/
def c7Vendor : ChatVendor :=
  { first := ⟨false, "Only the default temperature is supported with this model",
      c7GoodResp⟩
    second := ⟨true, "", c7GoodResp⟩ }

def c7Msgs : List Msg := [⟨"user", "hi"⟩]

def c7Opts : ChatOptions := ⟨"some-model", some 1, none, none, none, none⟩

theorem C7_counterexample :
    validateArgs c7Msgs c7Opts = Except.ok () ∧
    tempRetryCondition c7Vendor.first.errMessage = true ∧
    c7Vendor.second.ok = true ∧
    (anthropicChat c7Vendor c7Msgs c7Opts).attemptsTemp = [true] ∧
    (anthropicChat c7Vendor c7Msgs c7Opts).result =
      Except.error
        "Anthropic chat error: Anthropic API error: Only the default temperature is supported with this model" := by
  refine ⟨rfl, by decide, rfl, rfl, rfl⟩

/-- C7 (as amended): only the OpenAI adapter performs the
unsupported-temperature retry.  When OpenAI `chat` gets a non-2xx answer
whose text indicates an unsupported temperature and the caller supplied a
temperature, it retries exactly once with the temperature omitted and
returns a 2xx retry normally; on every other vendor error it propagates a
descriptive error after a single attempt.  The Anthropic and Google `chat`
adapters always perform exactly one attempt and propagate every vendor
error with zero retries. -/
theorem C7_temperature_retry :
    (∀ (vendor : ChatVendor) (messages : List Msg) (options : ChatOptions),
      validateArgs messages options = Except.ok () →
      options.temperature.isSome = true →
      vendor.first.ok = false →
      tempRetryCondition vendor.first.errMessage = true →
      (openaiChat vendor messages options).attemptsTemp = [true, false] ∧
      (vendor.second.ok = true →
        (openaiChat vendor messages options).result = Except.ok vendor.second.data)) ∧
    (∀ (vendor : ChatVendor) (messages : List Msg) (options : ChatOptions),
      validateArgs messages options = Except.ok () →
      vendor.first.ok = false →
      (options.temperature.isSome && tempRetryCondition vendor.first.errMessage) = false →
      (openaiChat vendor messages options).attemptsTemp = [options.temperature.isSome] ∧
      (openaiChat vendor messages options).result =
        Except.error ("OpenAI chat error: OpenAI API error: " ++ vendor.first.errMessage)) ∧
    (∀ (vendor : ChatVendor) (messages : List Msg) (options : ChatOptions),
      validateArgs messages options = Except.ok () →
      (anthropicChat vendor messages options).attemptsTemp = [true] ∧
      (vendor.first.ok = false →
        (anthropicChat vendor messages options).result =
          Except.error ("Anthropic chat error: Anthropic API error: " ++
            vendor.first.errMessage))) ∧
    (∀ (vendor : ChatVendor) (messages : List Msg) (options : ChatOptions),
      validateArgs messages options = Except.ok () →
      (googleChat vendor messages options).attemptsTemp = [true] ∧
      (vendor.first.ok = false →
        (googleChat vendor messages options).result =
          Except.error ("Google chat error: Google API error: " ++
            vendor.first.errMessage))) := by
  refine ⟨?_, ?_, ?_, ?_⟩
  · intro vendor messages options hval htemp hok hcond
    constructor
    · simp [openaiChat, hval, htemp, hok, hcond]
      split <;> simp [htemp]
    · intro hok2
      simp [openaiChat, hval, htemp, hok, hcond, hok2]
  · intro vendor messages options hval hok hcond
    constructor
    · simp [openaiChat, hval, hok, hcond]
    · simp [openaiChat, hval, hok, hcond]
  · intro vendor messages options hval
    refine ⟨?_, fun hok => by simp [anthropicChat, hval, hok]⟩
    simp only [anthropicChat, hval]
    split <;> rfl
  · intro vendor messages options hval
    refine ⟨?_, fun hok => by simp [googleChat, hval, hok]⟩
    simp only [googleChat, hval]
    split <;> rfl

theorem C7_temperature_retry_witness :
    validateArgs c7Msgs c7Opts = Except.ok () ∧
    c7Opts.temperature.isSome = true ∧
    c7Vendor.first.ok = false ∧
    tempRetryCondition c7Vendor.first.errMessage = true ∧
    (openaiChat c7Vendor c7Msgs c7Opts).attemptsTemp = [true, false] ∧
    (openaiChat c7Vendor c7Msgs c7Opts).result = Except.ok c7Vendor.second.data :=
  ⟨rfl, rfl, rfl, by decide,
   ((C7_temperature_retry.1) c7Vendor c7Msgs c7Opts rfl rfl rfl (by decide)).1,
   ((C7_temperature_retry.1) c7Vendor c7Msgs c7Opts rfl rfl rfl (by decide)).2 rfl⟩

/-! ## C4 -/

theorem allText_flatten {L : Type} (p : StreamChunk → Bool) (f : L → List StreamChunk)
    (ls : List L) (h : ∀ l ∈ ls, (f l).all p = true) :
    ((ls.map f).flatten).all p = true := by
  induction ls with
  | nil => rfl
  | cons l ls ih =>
      rw [List.map_cons, List.flatten_cons, List.all_append]
      rw [h l (by simp), ih (fun x hx => h x (by simp [hx]))]
      rfl

theorem openaiLine_text (l : OpenAISseLine) (h : l ≠ OpenAISseLine.doneMark) :
    (openaiLineChunks l).all (fun c => c.type == ChunkKind.text) = true := by
  cases l with
  | notData => rfl
  | doneMark => exact absurd rfl h
  | deltaContent c =>
      rw [openaiLineChunks]
      split <;> rfl
  | invalidJson => rfl

theorem anthropicLine_text (l : AnthropicSseLine)
    (h1 : l ≠ AnthropicSseLine.messageStop)
    (h2 : ∀ m, l ≠ AnthropicSseLine.errorEvent m) :
    (anthropicLineChunks l).all (fun c => c.type == ChunkKind.text) = true := by
  cases l with
  | notData => rfl
  | contentBlockDelta t =>
      rw [anthropicLineChunks]
      split <;> rfl
  | messageStop => exact absurd rfl h1
  | errorEvent m => exact absurd rfl (h2 m)
  | otherEvent => rfl
  | invalidJson => rfl

theorem wf_of_mid_terminal (mid : List StreamChunk) (term : StreamChunk)
    (hmid : mid.all (fun c => c.type == ChunkKind.text) = true)
    (hterm : isTerminalB term = true) :
    wellFormedTrace (startChunk :: (mid ++ [term])) = true := by
  simp only [wellFormedTrace, List.getLast?_concat, List.dropLast_concat, hmid, hterm]
  rfl

theorem wf_start_error (e : String) :
    wellFormedTrace [startChunk, errorChunk e] = true := rfl

theorem streamBody_graceful {L : Type} (f : L → List StreamChunk)
    (a : StreamAttempt L) (pre : List L) (d : L)
    (habort : a.abortError = none) (hlines : a.lines = pre ++ [d])
    (hd : f d = [endChunk])
    (hpre : ∀ l ∈ pre, (f l).all (fun c => c.type == ChunkKind.text) = true) :
    wellFormedTrace (startChunk :: streamBodyChunks f a) = true := by
  rw [streamBodyChunks, habort, hlines, List.map_append, List.flatten_append]
  simp only [List.map_cons, List.map_nil, List.flatten_cons, List.flatten_nil, hd,
    List.append_nil]
  exact wf_of_mid_terminal _ _ (allText_flatten _ f pre hpre) rfl

theorem streamBody_abort {L : Type} (f : L → List StreamChunk)
    (a : StreamAttempt L) (e : String)
    (habort : a.abortError = some e)
    (hl : ∀ l ∈ a.lines, (f l).all (fun c => c.type == ChunkKind.text) = true) :
    wellFormedTrace (startChunk :: streamBodyChunks f a) = true := by
  rw [streamBodyChunks, habort]
  exact wf_of_mid_terminal _ _ (allText_flatten _ f a.lines hl) rfl

/-- C4 counterexample input: a valid call whose 2xx vendor stream closes
without ever sending a `[DONE]` sentinel. -/
def c4Vendor : StreamVendor OpenAISseLine :=
  ⟨⟨true, "", [], none⟩, ⟨true, "", [], none⟩⟩

def c4Msgs : List Msg := [⟨"user", "hi"⟩]

def c4Opts : ChatOptions := ⟨"gpt-4", none, none, none, none, none⟩

theorem C4_counterexample :
    validateArgs c4Msgs c4Opts = Except.ok () ∧
    openaiChatStreamTrace c4Vendor c4Msgs c4Opts = [startChunk] ∧
    wellFormedTrace (openaiChatStreamTrace c4Vendor c4Msgs c4Opts) = false :=
  ⟨rfl, rfl, rfl⟩

/-- C4 (as amended): for every adapter `chatStream` invocation whose
argument validation passes, the trace starts with exactly one `start` chunk
emitted before the HTTP call, followed by `text` chunks in decode order; the
terminal `end` chunk is emitted only in response to the vendor's termination
sentinel (`[DONE]` / `message_stop`), so the trace finishes with exactly one
terminal chunk whenever the effective attempt either fails (exactly one
trailing `error` chunk, provided no sentinel and, for Anthropic, no vendor
`error` event was decoded before the failure) or completes gracefully with
the sentinel as its only terminal event; a 2xx stream that closes without a
sentinel leaves the trace with no terminal chunk at all. -/
theorem C4_stream_chunk_shape :
    (∀ (vendor : StreamVendor OpenAISseLine) (messages : List Msg) (options : ChatOptions),
      validateArgs messages options = Except.ok () →
      ∃ rest, openaiChatStreamTrace vendor messages options = startChunk :: rest) ∧
    (∀ (vendor : StreamVendor OpenAISseLine) (messages : List Msg) (options : ChatOptions)
      (pre : List OpenAISseLine),
      validateArgs messages options = Except.ok () →
      vendor.first.ok = true →
      vendor.first.abortError = none →
      vendor.first.lines = pre ++ [OpenAISseLine.doneMark] →
      (∀ l ∈ pre, l ≠ OpenAISseLine.doneMark) →
      wellFormedTrace (openaiChatStreamTrace vendor messages options) = true) ∧
    (∀ (vendor : StreamVendor OpenAISseLine) (messages : List Msg) (options : ChatOptions)
      (e : String),
      validateArgs messages options = Except.ok () →
      vendor.first.ok = true →
      vendor.first.abortError = some e →
      (∀ l ∈ vendor.first.lines, l ≠ OpenAISseLine.doneMark) →
      wellFormedTrace (openaiChatStreamTrace vendor messages options) = true) ∧
    (∀ (vendor : StreamVendor OpenAISseLine) (messages : List Msg) (options : ChatOptions),
      validateArgs messages options = Except.ok () →
      vendor.first.ok = false →
      (options.temperature.isSome && tempRetryCondition vendor.first.errMessage) = false →
      wellFormedTrace (openaiChatStreamTrace vendor messages options) = true) ∧
    (∀ (vendor : StreamVendor OpenAISseLine) (messages : List Msg) (options : ChatOptions)
      (pre : List OpenAISseLine),
      validateArgs messages options = Except.ok () →
      vendor.first.ok = false →
      (options.temperature.isSome && tempRetryCondition vendor.first.errMessage) = true →
      vendor.second.ok = true →
      vendor.second.abortError = none →
      vendor.second.lines = pre ++ [OpenAISseLine.doneMark] →
      (∀ l ∈ pre, l ≠ OpenAISseLine.doneMark) →
      wellFormedTrace (openaiChatStreamTrace vendor messages options) = true) ∧
    (∀ (vendor : StreamVendor OpenAISseLine) (messages : List Msg) (options : ChatOptions)
      (e : String),
      validateArgs messages options = Except.ok () →
      vendor.first.ok = false →
      (options.temperature.isSome && tempRetryCondition vendor.first.errMessage) = true →
      vendor.second.ok = true →
      vendor.second.abortError = some e →
      (∀ l ∈ vendor.second.lines, l ≠ OpenAISseLine.doneMark) →
      wellFormedTrace (openaiChatStreamTrace vendor messages options) = true) ∧
    (∀ (vendor : StreamVendor OpenAISseLine) (messages : List Msg) (options : ChatOptions),
      validateArgs messages options = Except.ok () →
      vendor.first.ok = false →
      (options.temperature.isSome && tempRetryCondition vendor.first.errMessage) = true →
      vendor.second.ok = false →
      wellFormedTrace (openaiChatStreamTrace vendor messages options) = true) ∧
    (∀ (attempt : StreamAttempt AnthropicSseLine) (messages : List Msg)
      (options : ChatOptions),
      validateArgs messages options = Except.ok () →
      ∃ rest, anthropicChatStreamTrace attempt messages options = startChunk :: rest) ∧
    (∀ (attempt : StreamAttempt AnthropicSseLine) (messages : List Msg)
      (options : ChatOptions) (pre : List AnthropicSseLine),
      validateArgs messages options = Except.ok () →
      attempt.ok = true →
      attempt.abortError = none →
      attempt.lines = pre ++ [AnthropicSseLine.messageStop] →
      (∀ l ∈ pre, l ≠ AnthropicSseLine.messageStop ∧
        ∀ m, l ≠ AnthropicSseLine.errorEvent m) →
      wellFormedTrace (anthropicChatStreamTrace attempt messages options) = true) ∧
    (∀ (attempt : StreamAttempt AnthropicSseLine) (messages : List Msg)
      (options : ChatOptions) (e : String),
      validateArgs messages options = Except.ok () →
      attempt.ok = true →
      attempt.abortError = some e →
      (∀ l ∈ attempt.lines, l ≠ AnthropicSseLine.messageStop ∧
        ∀ m, l ≠ AnthropicSseLine.errorEvent m) →
      wellFormedTrace (anthropicChatStreamTrace attempt messages options) = true) ∧
    (∀ (attempt : StreamAttempt AnthropicSseLine) (messages : List Msg)
      (options : ChatOptions),
      validateArgs messages options = Except.ok () →
      attempt.ok = false →
      wellFormedTrace (anthropicChatStreamTrace attempt messages options) = true) := by
  refine ⟨?_, ?_, ?_, ?_, ?_, ?_, ?_, ?_, ?_, ?_, ?_⟩
  · intro vendor messages options hval
    exact ⟨_, by rw [openaiChatStreamTrace, hval]⟩
  · intro vendor messages options pre hval hok habort hlines hpre
    rw [openaiChatStreamTrace, hval]
    simp only [hok, if_pos]
    exact streamBody_graceful _ _ pre _ habort hlines rfl
      (fun l hl => openaiLine_text l (hpre l hl))
  · intro vendor messages options e hval hok habort hpre
    rw [openaiChatStreamTrace, hval]
    simp only [hok, if_pos]
    exact streamBody_abort _ _ e habort (fun l hl => openaiLine_text l (hpre l hl))
  · intro vendor messages options hval hok hnc
    rw [openaiChatStreamTrace, hval]
    simp only [hok, Bool.false_eq_true, if_neg, hnc]
    exact wf_start_error _
  · intro vendor messages options pre hval hok hc hok2 habort hlines hpre
    rw [openaiChatStreamTrace, hval]
    simp only [hok, Bool.false_eq_true, if_neg, hc, if_pos, hok2]
    exact streamBody_graceful _ _ pre _ habort hlines rfl
      (fun l hl => openaiLine_text l (hpre l hl))
  · intro vendor messages options e hval hok hc hok2 habort hpre
    rw [openaiChatStreamTrace, hval]
    simp only [hok, Bool.false_eq_true, if_neg, hc, if_pos, hok2]
    exact streamBody_abort _ _ e habort (fun l hl => openaiLine_text l (hpre l hl))
  · intro vendor messages options hval hok hc hok2
    rw [openaiChatStreamTrace, hval]
    simp only [hok, hok2, Bool.false_eq_true, if_neg, hc, if_pos]
    exact wf_start_error _
  · intro attempt messages options hval
    exact ⟨_, by rw [anthropicChatStreamTrace, hval]⟩
  · intro attempt messages options pre hval hok habort hlines hpre
    rw [anthropicChatStreamTrace, hval]
    simp only [hok, if_pos]
    exact streamBody_graceful _ _ pre _ habort hlines rfl
      (fun l hl => anthropicLine_text l (hpre l hl).1 (hpre l hl).2)
  · intro attempt messages options e hval hok habort hpre
    rw [anthropicChatStreamTrace, hval]
    simp only [hok, if_pos]
    exact streamBody_abort _ _ e habort
      (fun l hl => anthropicLine_text l (hpre l hl).1 (hpre l hl).2)
  · intro attempt messages options hval hok
    rw [anthropicChatStreamTrace, hval]
    simp only [hok, Bool.false_eq_true, if_neg]
    exact wf_start_error _

/-- A vendor whose single 2xx attempt streams one delta and then the
sentinel. -/
def c4WitnessVendor : StreamVendor OpenAISseLine :=
  ⟨⟨true, "", [OpenAISseLine.deltaContent "hi", OpenAISseLine.doneMark], none⟩,
   ⟨true, "", [], none⟩⟩

theorem C4_stream_chunk_shape_witness :
    validateArgs c4Msgs c4Opts = Except.ok () ∧
    wellFormedTrace (openaiChatStreamTrace c4WitnessVendor c4Msgs c4Opts) = true :=
  ⟨rfl,
   C4_stream_chunk_shape.2.1 c4WitnessVendor c4Msgs c4Opts
     [OpenAISseLine.deltaContent "hi"] rfl rfl rfl rfl
     (by intro l hl; fin_cases hl; decide)⟩

end Promptify
